import Mathlib

/-
Verification development for the optking geometry-optimization engine slice:
the optimization-parameter configuration object (optking/optparams.py),
the JSON molecular-computation schema adapter (optking/qcdbjson.py),
and the torsion-angle internal coordinate (tors.py).

Python floats are modelled exactly: as rationals where the code performs only
field operations and comparisons, and as real numbers where square roots occur
(the torsion derivative code). Python dictionaries are modelled as association
lists with first-match lookup; Python exceptions as an `Except` error channel.
-/

set_option maxRecDepth 4000

/-- Dynamically-typed primitive value stored in a user option dictionary. -/
inductive PyVal where
  | pstr (s : String)
  | pnum (q : ℚ)
  | pbool (b : Bool)
  | pnone
  deriving DecidableEq, Repr

/-- Numeric view of a Python value (Python bools are ints; other types are
never stored into numeric options by the claims considered here). -/
def PyVal.toNumQ : PyVal → ℚ
  | .pnum q => q
  | .pbool b => if b then 1 else 0
  | _ => 0

/-- String view of a Python value. -/
def PyVal.toStrS : PyVal → String
  | .pstr s => s
  | _ => ""

/-- Truthiness of a Python value (`if value:`). -/
def PyVal.toBoolB : PyVal → Bool
  | .pbool b => b
  | .pnum q => decide (q ≠ 0)
  | .pstr s => decide (s ≠ "")
  | .pnone => false

/-- A user option dictionary: keys to primitive values, first match wins. -/
abbrev UOD := List (String × PyVal)

/-- Python `dict.__getitem__`-style lookup (case-sensitive, exact key). -/
def uodGet : UOD → String → Option PyVal
  | [], _ => none
  | (k, v) :: rest, key => if k = key then some v else uodGet rest key

/-- Python `uod.get(key, default)`. -/
def uodGetD (uod : UOD) (key : String) (d : PyVal) : PyVal :=
  (uodGet uod key).getD d

/-- Python `key in uod`. -/
def uodHas (uod : UOD) (key : String) : Bool :=
  (uodGet uod key).isSome

/-- `uod.get(key, default)` followed by numeric use. -/
def uodGetNum (uod : UOD) (key : String) (d : ℚ) : ℚ :=
  (uodGetD uod key (.pnum d)).toNumQ

/-- `uod.get(key, default)` followed by string use. -/
def uodGetStr (uod : UOD) (key : String) (d : String) : String :=
  (uodGetD uod key (.pstr d)).toStrS

/-- `uod.get(key, default)` followed by boolean use. -/
def uodGetBool (uod : UOD) (key : String) (d : Bool) : Bool :=
  (uodGetD uod key (.pbool d)).toBoolB

/-- Python exception kinds raised by the modelled code. `valueError` plays the
role the spec calls InvalidInput; `optError` is the OptError/OptionError of
optking.exceptions. -/
inductive PyErr where
  | optError (msg : String)
  | valueError (msg : String)
  | keyError (key : String)
  | typeError
  deriving DecidableEq, Repr

/-- Upper-case a string (kernel-reducible form of `str.upper()`). -/
def strUpper (s : String) : String :=
  ⟨s.data.map Char.toUpper⟩

/-- Lower-case a string (kernel-reducible form of `str.lower()`). -/
def strLower (s : String) : String :=
  ⟨s.data.map Char.toLower⟩

/-- Split a character list at characters satisfying `p`, dropping empty runs. -/
def splitDropAux (p : Char → Bool) : List Char → List Char → List (List Char)
  | [], cur => if cur.isEmpty then [] else [cur.reverse]
  | c :: cs, cur =>
    if p c then
      if cur.isEmpty then splitDropAux p cs []
      else cur.reverse :: splitDropAux p cs []
    else splitDropAux p cs (c :: cur)

/-- Split a character list at characters satisfying `p`, keeping empty runs. -/
def splitKeepAux (p : Char → Bool) : List Char → List Char → List (List Char)
  | [], cur => [cur.reverse]
  | c :: cs, cur =>
    if p c then cur.reverse :: splitKeepAux p cs []
    else splitKeepAux p cs (c :: cur)

/-- Modelled from the spec (§4.3; misc.py is not in the supplied sources):
splits free-form option text on any whitespace, discarding empty tokens. -/
def tokenize_input_string (s : String) : List String :=
  (splitDropAux (fun c => c.isWhitespace) s.data []).map (fun l => ⟨l⟩)

/-- Value of a decimal digit character. -/
def digitVal (c : Char) : Option ℕ :=
  if c.isDigit then some (c.toNat - 48) else none

/-- Parse an unsigned decimal natural from characters. -/
def natOfChars (l : List Char) : Option ℕ :=
  if l.isEmpty then none
  else l.foldl (fun acc c =>
    match acc, digitVal c with
    | some a, some d => some (a * 10 + d)
    | _, _ => none) (some 0)

/-- Parse a signed decimal integer from a string. -/
def intOfString (s : String) : Option ℤ :=
  match s.data with
  | '-' :: rest => (natOfChars rest).map (fun n => -(n : ℤ))
  | l => (natOfChars l).map (fun n => (n : ℤ))

/-- Group a flat list into consecutive chunks of `n` elements (fuel-based
structural recursion; the fuel is the list length, which always suffices). -/
def chunkListAux {α : Type} (n : ℕ) : ℕ → List α → List (List α)
  | _, [] => []
  | 0, x :: xs => [x :: xs]
  | fuel + 1, x :: xs => (x :: xs.take (n - 1)) :: chunkListAux n fuel (xs.drop (n - 1))

/-- Group a flat list into consecutive chunks of `n` elements. -/
def chunkList {α : Type} (n : ℕ) (l : List α) : List (List α) :=
  chunkListAux n l.length l

/-- Parse one integer token. -/
def parseIntTok (t : String) : Except PyErr ℤ :=
  match intOfString t with
  | some i => .ok i
  | none => .error (.valueError ("expected integer: " ++ t))

/-- Decimal parser for an unsigned numeric token. -/
def ratOfNonnegChars (l : List Char) : Option ℚ :=
  match splitKeepAux (fun c => c = '.') l [] with
  | [a] => (natOfChars a).map (fun n => (n : ℚ))
  | [a, b] =>
    match natOfChars a, natOfChars b with
    | some i, some f => some ((i : ℚ) + (f : ℚ) / (10 ^ b.length))
    | _, _ => none
  | _ => none

/-- Decimal parser for a signed numeric token. -/
def ratOfString (s : String) : Option ℚ :=
  match s.data with
  | '-' :: rest => (ratOfNonnegChars rest).map (fun q => -q)
  | l => ratOfNonnegChars l

/-- Parse one float token. -/
def parseRatTok (t : String) : Except PyErr ℚ :=
  match ratOfString t with
  | some q => .ok q
  | none => .error (.valueError ("expected number: " ++ t))

/-- Modelled from the spec (§4.3; misc.py is not in the supplied sources):
groups tokens into consecutive runs of `n` integers, one atom-index record per
run; malformed input fails with InvalidInput. -/
def int_list (toks : List String) (n : ℕ) : Except PyErr (List (List ℤ)) := do
  let ints ← toks.mapM parseIntTok
  if toks.length % n = 0 then pure (chunkList n ints)
  else throw (.valueError "wrong number of tokens")

/-- Modelled from the spec (§4.3): groups into `nIdx` integers followed by
`nVal` floats per record. -/
def int_float_list (toks : List String) (nIdx nVal : ℕ) :
    Except PyErr (List (List ℤ × List ℚ)) := do
  if toks.length % (nIdx + nVal) = 0 then
    (chunkList (nIdx + nVal) toks).mapM (fun grp => do
      let ints ← (grp.take nIdx).mapM parseIntTok
      let vals ← (grp.drop nIdx).mapM parseRatTok
      pure (ints, vals))
  else throw (.valueError "wrong number of tokens")

/-- Convert a case-insensitive axis-mask token such as "xYz" into three 0/1
flags for the x, y, z axes. -/
def xyzMaskFlags (t : String) : Except PyErr (List ℕ) :=
  let l := (strLower t).data
  if ¬ l.isEmpty ∧ l.all (fun c => c = 'x' ∨ c = 'y' ∨ c = 'z') then
    .ok [if l.contains 'x' then 1 else 0,
         if l.contains 'y' then 1 else 0,
         if l.contains 'z' then 1 else 0]
  else .error (.valueError ("unrecognized axis letters: " ++ t))

/-- Modelled from the spec (§4.3): groups of `nIdx` integers, `nMask` axis-mask
tokens, and `nVal` floats per record. -/
def int_xyz_float_list (toks : List String) (nIdx nMask nVal : ℕ) :
    Except PyErr (List (List ℤ × List ℕ × List ℚ)) := do
  if toks.length % (nIdx + nMask + nVal) = 0 then
    (chunkList (nIdx + nMask + nVal) toks).mapM (fun grp => do
      let ints ← (grp.take nIdx).mapM parseIntTok
      let masks ← ((grp.drop nIdx).take nMask).mapM xyzMaskFlags
      let vals ← (grp.drop (nIdx + nMask)).mapM parseRatTok
      pure (ints, masks.foldr (· ++ ·) [], vals))
  else throw (.valueError "wrong number of tokens")

/-- Modelled from the spec (§4.3): parses a raw external-force string into
records of `n` atom indices plus one force-definition token. -/
def int_fx_string (s : String) (n : ℕ) :
    Except PyErr (List (List ℤ × String)) := do
  let toks := tokenize_input_string s
  if toks.length % (n + 1) = 0 then
    (chunkList (n + 1) toks).mapM (fun grp => do
      let ints ← (grp.take n).mapM parseIntTok
      pure (ints, (grp.drop n).foldr (· ++ ·) ""))
  else throw (.valueError "wrong number of tokens")

/-- Modelled from the spec (§4.3): parses a raw external-force string into
records of `n` atom indices, one axis mask, and one force-definition token. -/
def int_xyz_fx_string (s : String) (n : ℕ) :
    Except PyErr (List (List ℤ × List ℕ × String)) := do
  let toks := tokenize_input_string s
  if toks.length % (n + 2) = 0 then
    (chunkList (n + 2) toks).mapM (fun grp => do
      let ints ← (grp.take n).mapM parseIntTok
      let masks ← ((grp.drop n).take 1).mapM xyzMaskFlags
      pure (ints, masks.foldr (· ++ ·) [], (grp.drop (n + 1)).foldr (· ++ ·) ""))
  else throw (.valueError "wrong number of tokens")

/-- The allowed-value table for enumerated-string options
(optparams.py `allowedStringOptions`). -/
def allowedStringOptions (storage : String) : List String :=
  match storage with
  | "opt_type" => ["MIN", "TS", "IRC"]
  | "step_type" => ["RFO", "RS_I_RFO", "P_RFO", "NR", "SD", "LINESEARCH", "CONJUGATE"]
  | "opt_coordinates" =>
    ["REDUNDANT", "INTERNAL", "DELOCALIZED", "NATURAL", "CARTESIAN", "BOTH"]
  | "irc_direction" => ["FORWARD", "BACKWARD"]
  | "g_convergence" =>
    ["QCHEM", "MOLPRO", "GAU", "GAU_LOOSE", "GAU_TIGHT", "GAU_VERYTIGHT",
     "TURBOMOLE", "CFOUR", "NWCHEM_LOOSE", "INTERFRAG_TIGHT"]
  | "hess_update" => ["NONE", "BFGS", "MS", "POWELL", "BOFILL"]
  | "intrafrag_hess" =>
    ["SCHLEGEL", "FISCHER", "SCHLEGEL", "SIMPLE", "LINDH", "LINDH_SIMPLE"]
  | "frag_mode" => ["SINGLE", "MULTI"]
  | "interfrag_mode" => ["FIXED", "PRINCIPAL_AXES"]
  | "interfrag_hess" => ["DEFAULT", "FISCHER_LIKE"]
  | "conjugate_gradient_type" => ["FLETCHER", "DESCENT", "POLAK"]
  | _ => []

/-- The enumerated-string option setter (optparams.py `string_option`):
upper-cases the value; stores it when the upper-cased form is in the allowed
set, else raises OptError. -/
def stringOptionSet (storage : String) (value : String) : Except PyErr String :=
  if strUpper value ∈ allowedStringOptions storage then .ok (strUpper value)
  else .error (.optError ("Invalid value for " ++ storage))

/-- Working state of the convergence-criteria flags and thresholds
(the i_* and conv_* attributes of optparams.py, lines 468-601). -/
structure ConvCriteria where
  i_max_force : Bool
  i_rms_force : Bool
  i_max_DE : Bool
  i_max_disp : Bool
  i_rms_disp : Bool
  i_untampered : Bool
  conv_rms_force : ℚ
  conv_rms_disp : ℚ
  conv_max_DE : ℚ
  conv_max_force : ℚ
  conv_max_disp : ℚ
  deriving DecidableEq, Repr

/-- The initial internal optimization parameters (optparams.py lines 468-478). -/
def initConvCriteria : ConvCriteria :=
  { i_max_force := false, i_rms_force := false, i_max_DE := false
    i_max_disp := false, i_rms_disp := false, i_untampered := false
    conv_rms_force := -1, conv_rms_disp := -1, conv_max_DE := -1
    conv_max_force := -1, conv_max_disp := -1 }

/-- The `g_convergence` preset dispatch (optparams.py lines 480-573). -/
def applyGConvergencePreset (g : String) (c : ConvCriteria) : ConvCriteria :=
  if g = "QCHEM" then
    { c with i_untampered := true, conv_max_force := 3.0e-4, i_max_force := true
             conv_max_DE := 1.0e-6, i_max_DE := true
             conv_max_disp := 1.2e-3, i_max_disp := true }
  else if g = "MOLPRO" then
    { c with i_untampered := true, conv_max_force := 3.0e-4, i_max_force := true
             conv_max_DE := 1.0e-6, i_max_DE := true
             conv_max_disp := 3.0e-4, i_max_disp := true }
  else if g = "GAU" then
    { c with i_untampered := true, conv_max_force := 4.5e-4, i_max_force := true
             conv_rms_force := 3.0e-4, i_rms_force := true
             conv_max_disp := 1.8e-3, i_max_disp := true
             conv_rms_disp := 1.2e-3, i_rms_disp := true }
  else if g = "GAU_TIGHT" then
    { c with i_untampered := true, conv_max_force := 1.5e-5, i_max_force := true
             conv_rms_force := 1.0e-5, i_rms_force := true
             conv_max_disp := 6.0e-5, i_max_disp := true
             conv_rms_disp := 4.0e-5, i_rms_disp := true }
  else if g = "GAU_VERYTIGHT" then
    { c with i_untampered := true, conv_max_force := 2.0e-6, i_max_force := true
             conv_rms_force := 1.0e-6, i_rms_force := true
             conv_max_disp := 6.0e-6, i_max_disp := true
             conv_rms_disp := 4.0e-6, i_rms_disp := true }
  else if g = "GAU_LOOSE" then
    { c with i_untampered := true, conv_max_force := 2.5e-3, i_max_force := true
             conv_rms_force := 1.7e-3, i_rms_force := true
             conv_max_disp := 1.0e-2, i_max_disp := true
             conv_rms_disp := 6.7e-3, i_rms_disp := true }
  else if g = "TURBOMOLE" then
    { c with i_untampered := true, conv_max_force := 1.0e-3, i_max_force := true
             conv_rms_force := 5.0e-4, i_rms_force := true
             conv_max_DE := 1.0e-6, i_max_DE := true
             conv_max_disp := 1.0e-3, i_max_disp := true
             conv_rms_disp := 5.0e-4, i_rms_disp := true }
  else if g = "CFOUR" then
    { c with i_untampered := true, conv_rms_force := 1.0e-4, i_rms_force := true }
  else if g = "NWCHEM_LOOSE" then
    { c with i_untampered := true, conv_max_force := 4.5e-3, i_max_force := true
             conv_rms_force := 3.0e-3, i_rms_force := true
             conv_max_disp := 5.4e-3, i_max_disp := true
             conv_rms_disp := 3.6e-3, i_rms_disp := true }
  else if g = "INTERFRAG_TIGHT" then
    { c with i_untampered := true, conv_max_DE := 1.0e-5, i_max_DE := true
             conv_max_force := 1.5e-5, i_max_force := true
             conv_rms_force := 1.0e-5, i_rms_force := true
             conv_max_disp := 6.0e-4, i_max_disp := true
             conv_rms_disp := 4.0e-4, i_rms_disp := true }
  else c

/-- The optimization-parameter configuration object: one field per attribute
assigned by `OptParams.__init__` (optparams.py). Attributes that only some
code paths create (Python dynamic attributes) are `Option`-typed, `none`
meaning the attribute is absent. The field defaults record the literal
defaults of the source and are used for example objects only; construction
from a user option dictionary is `buildOptParams`, which assigns every field
explicitly. -/
structure OptParams where
  program : String := "psi4"
  geom_maxiter : ℚ := 50
  alg_geom_maxiter : ℚ := 50
  print_lvl : ℚ := 1
  output_type : String := "FILE"
  opt_type : String := "MIN"
  step_type : String := "RFO"
  steepest_descent_type : String := "OVERLAP"
  conjugate_gradient_type : String := "FLETCHER"
  opt_coordinates : String := "REDUNDANT"
  rfo_follow_root : Bool := false
  rfo_root : ℚ := 0
  accept_symmetry_breaking : Bool := false
  dynamic_level : ℚ := 0
  dynamic_level_max : ℚ := 0
  irc_step_size : ℚ := 0.2
  irc_direction : String := "FORWARD"
  irc_points : ℚ := 20
  intrafrag_trust : ℚ := 0.5
  intrafrag_trust_min : ℚ := 0.001
  intrafrag_trust_max : ℚ := 1.0
  interfrag_trust : ℚ := 0.5
  interfrag_trust_min : ℚ := 0.001
  interfrag_trust_max : ℚ := 1.0
  ensure_bt_convergence : Bool := false
  simple_step_scaling : Bool := false
  consecutive_backsteps_allowed : ℚ := 0
  working_consecutive_backsteps : ℚ := 0
  rfo_normalization_max : ℚ := 100
  rsrfo_alpha_max : ℚ := 1e8
  trajectory : Bool := false
  frozen_distance : List (List ℤ) := []
  frozen_bend : List (List ℤ) := []
  frozen_dihedral : List (List ℤ) := []
  frozen_oofp : List (List ℤ) := []
  frozen_cartesian : List (List ℤ × List ℕ × List ℚ) := []
  ranged_distance : List (List ℤ × List ℚ) := []
  ranged_bend : List (List ℤ × List ℚ) := []
  ranged_dihedral : List (List ℤ × List ℚ) := []
  ranged_oofp : List (List ℤ × List ℚ) := []
  ranged_cartesian : List (List ℤ × List ℕ × List ℚ) := []
  ext_force_distance : List (List ℤ × String) := []
  ext_force_bend : List (List ℤ × String) := []
  ext_force_dihedral : List (List ℤ × String) := []
  ext_force_oofp : List (List ℤ × String) := []
  ext_force_cartesian : List (List ℤ × List ℕ × String) := []
  g_convergence : String := "QCHEM"
  max_force_g_convergence : ℚ := 3.0e-4
  rms_force_g_convergence : ℚ := 3.0e-4
  max_energy_g_convergence : ℚ := 1.0e-6
  max_disp_g_convergence : ℚ := 1.2e-3
  rms_disp_g_convergence : ℚ := 1.2e-3
  flexible_g_convergence : Bool := false
  hess_update : String := "BFGS"
  hess_update_use_last : ℚ := 4
  hess_update_limit : Bool := true
  hess_update_limit_max : ℚ := 1.00
  hess_update_limit_scale : ℚ := 0.50
  hess_update_den_tol : ℚ := 1e-7
  hess_update_dq_tol : ℚ := 0.5
  cart_hess_read : Bool := false
  hessian_file : PyVal := .pnone
  full_hess_every : ℚ := -1
  intrafrag_hess : String := "SCHLEGEL"
  working_steps_since_last_H : ℚ := 0
  bt_max_iter : ℚ := 25
  bt_dx_conv : ℚ := 1.0e-7
  bt_dx_rms_change_conv : ℚ := 1.0e-12
  bt_pinv_rcond : ℚ := 1.0e-6
  frag_mode : String := "SINGLE"
  frag_ref_atoms : PyVal := .pnone
  freeze_intrafrag : Bool := false
  interfrag_mode : String := "FIXED"
  add_auxiliary_bonds : Bool := false
  auxiliary_bond_factor : ℚ := 2.5
  interfrag_dist_inv : Bool := false
  interfrag_collinear_tol : ℚ := 0.01
  interfrag_coords : PyVal := .pnone
  covalent_connect : ℚ := 1.3
  interfragment_connect : ℚ := 1.8
  h_bond_connect : ℚ := 4.3
  generate_intcos_exit : Bool := false
  include_oofp : Bool := false
  test_B : Bool := false
  test_derivative_B : Bool := false
  keep_intcos : Bool := false
  linesearch_step : ℚ := 0.100
  linesearch : Bool := false
  sd_hessian : ℚ := 1.0
  fix_val_near_pi : ℚ := 1.57
  v3d_tors_angle_lim : ℚ := 0.017
  v3d_tors_cos_tol : ℚ := 1e-10
  linear_bend_threshold : ℚ := 3.05
  small_bend_fix_threshold : ℚ := 0.35
  redundant_eval_tol : ℚ := 1.0e-10
  conv : ConvCriteria := initConvCriteria
  h_guess_every : Option Bool := none
  H_guess_every : Option Bool := none
  print_trajectory_xyz_file : Option Bool := none
  read_cartesian_H : Option Bool := none
  consecutiveBackstepsAllowed : Option ℚ := none

/-- Construction of the configuration object from a user option dictionary:
a line-by-line functional transcription of `OptParams.__init__`
(optparams.py lines 90-602). Dictionary lookups use the exact literal keys of
the source (`uod.get` is case-sensitive in Python). -/
def buildOptParams (uod : UOD) : Except PyErr OptParams := do
  let program := uodGetStr uod "program" "psi4"
  let geom_maxiter := uodGetNum uod "geom_maxiter" 50
  let alg_geom_maxiter :=
    if uodHas uod "geom_maxiter" && !(uodHas uod "alg_geom_maxiter") then geom_maxiter
    else uodGetNum uod "alg_geom_maxiter" 50
  let print_lvl := uodGetNum uod "print" 1
  let output_type := uodGetStr uod "OUTPUT_TYPE" "FILE"
  let opt_type ← stringOptionSet "opt_type" (uodGetStr uod "OPT_TYPE" "MIN")
  let step_type ← stringOptionSet "step_type" (uodGetStr uod "STEP_TYPE" "RFO")
  let steepest_descent_type := uodGetStr uod "STEEPEST_DESCENT_TYPE" "OVERLAP"
  let conjugate_gradient_type ←
    stringOptionSet "conjugate_gradient_type" (uodGetStr uod "CONJUGATE_GRADIENT_TYPE" "FLETCHER")
  let opt_coordinates ← stringOptionSet "opt_coordinates" (uodGetStr uod "OPT_COORDINATES" "REDUNDANT")
  let rfo_follow_root := uodGetBool uod "RFO_FOLLOW_ROOT" false
  let rfo_root := uodGetNum uod "RFO_ROOT" 0
  let accept_symmetry_breaking := uodGetBool uod "ACCEPT_SYMMETRY_BREAKING" false
  let dynamic_level := uodGetNum uod "DYNAMIC_LEVEL" 0
  let dynamic_level_max :=
    if dynamic_level = 0 then 0 else uodGetNum uod "DYNAMIC_LEVEL_MAX" 6
  let irc_step_size := uodGetNum uod "IRC_STEP_SIZE" 0.2
  let irc_direction ← stringOptionSet "irc_direction" (uodGetStr uod "IRC_DIRECTION" "FORWARD")
  let irc_points := uodGetNum uod "IRC_POINTS" 20
  let intrafrag_trust := uodGetNum uod "INTRAFRAG_STEP_LIMIT" 0.5
  let intrafrag_trust_min := uodGetNum uod "INTRAFRAG_STEP_LIMIT_MIN" 0.001
  let intrafrag_trust_max := uodGetNum uod "INTRAFRAG_STEP_LIMIT_MAX" 1.0
  let interfrag_trust := uodGetNum uod "INTERFRAG_TRUST" 0.5
  let interfrag_trust_min := uodGetNum uod "INTERFRAG_TRUST_MIN" 0.001
  let interfrag_trust_max := uodGetNum uod "INTERFRAG_TRUST_MAX" 1.0
  let ensure_bt_convergence := uodGetBool uod "ENSURE_BT_CONVERGENCE" false
  let intrafrag_trust :=
    if intrafrag_trust_max < intrafrag_trust then intrafrag_trust_max else intrafrag_trust
  let simple_step_scaling := uodGetBool uod "SIMPLE_STEP_SCALING" false
  let consecutive_backsteps_allowed := uodGetNum uod "CONSECUTIVE_BACKSTEPS" 0
  let rfo_normalization_max := uodGetNum uod "RFO_NORMALIZATION_MAX" 100
  let rsrfo_alpha_max := uodGetNum uod "RSRFO_ALPHA_MAX" 1e8
  let trajectory := uodGetBool uod "TRAJECTORY" false
  let frozen_distance ← int_list (tokenize_input_string (uodGetStr uod "FROZEN_DISTANCE" "")) 2
  let frozen_bend ← int_list (tokenize_input_string (uodGetStr uod "FROZEN_BEND" "")) 3
  let frozen_dihedral ← int_list (tokenize_input_string (uodGetStr uod "FROZEN_DIHEDRAL" "")) 4
  let frozen_oofp ← int_list (tokenize_input_string (uodGetStr uod "FROZEN_OOFP" "")) 4
  let frozen_cartesian ←
    int_xyz_float_list (tokenize_input_string (uodGetStr uod "FROZEN_CARTESIAN" "")) 1 1 0
  let ranged_distance ←
    int_float_list (tokenize_input_string (uodGetStr uod "RANGED_DISTANCE" "")) 2 2
  let ranged_bend ← int_float_list (tokenize_input_string (uodGetStr uod "RANGED_BEND" "")) 3 2
  let ranged_dihedral ←
    int_float_list (tokenize_input_string (uodGetStr uod "RANGED_DIHEDRAL" "")) 4 2
  let ranged_oofp ← int_float_list (tokenize_input_string (uodGetStr uod "RANGED_OOFP" "")) 4 2
  let ranged_cartesian ←
    int_xyz_float_list (tokenize_input_string (uodGetStr uod "RANGED_CARTESIAN" "")) 1 1 2
  let ext_force_distance ← int_fx_string (uodGetStr uod "EXT_FORCE_DISTANCE" "") 2
  let ext_force_bend ← int_fx_string (uodGetStr uod "EXT_FORCE_BEND" "") 3
  let ext_force_dihedral ← int_fx_string (uodGetStr uod "EXT_FORCE_DIHEDRAL" "") 4
  let ext_force_oofp ← int_fx_string (uodGetStr uod "EXT_FORCE_OOFP" "") 4
  let ext_force_cartesian ← int_xyz_fx_string (uodGetStr uod "EXT_FORCE_CARTESIAN" "") 1
  let g_convergence ← stringOptionSet "g_convergence" (uodGetStr uod "G_CONVERGENCE" "QCHEM")
  let max_force_g_convergence := uodGetNum uod "MAX_FORCE_G_CONVERGENCE" 3.0e-4
  let rms_force_g_convergence := uodGetNum uod "RMS_FORCE_G_CONVERGENCE" 3.0e-4
  let max_energy_g_convergence := uodGetNum uod "MAX_ENERGY_G_CONVERGENCE" 1.0e-6
  let max_disp_g_convergence := uodGetNum uod "MAX_DISP_G_CONVERGENCE" 1.2e-3
  let rms_disp_g_convergence := uodGetNum uod "RMS_DISP_G_CONVERGENCE" 1.2e-3
  let flexible_g_convergence := uodGetBool uod "FLEXIBLE_G_CONVERGENCE" false
  let hess_update ← stringOptionSet "hess_update" (uodGetStr uod "HESS_UPDATE" "BFGS")
  let hess_update_use_last := uodGetNum uod "HESS_UPDATE_USE_LAST" 4
  let hess_update_limit := uodGetBool uod "HESS_UPDATE_LIMIT" true
  let hess_update_limit_max := uodGetNum uod "HESS_UPDATE_LIMIT_MAX" 1.00
  let hess_update_limit_scale := uodGetNum uod "HESS_UPDATE_LIMIT_SCALE" 0.50
  let hess_update_den_tol := uodGetNum uod "HESS_UPDATE_DEN_TOL" 1e-7
  let cart_hess_read := uodGetBool uod "CART_HESS_READ" false
  let hessian_file := uodGetD uod "HESSIAN_FILE" .pnone
  let full_hess_every := uodGetNum uod "FULL_HESS_EVERY" (-1)
  let intrafrag_hess ← stringOptionSet "intrafrag_hess" (uodGetStr uod "INTRAFRAG_HESS" "SCHLEGEL")
  let bt_max_iter := uodGetNum uod "bt_max_iter" 25
  let bt_dx_conv := uodGetNum uod "bt_dx_conv" 1.0e-7
  let bt_dx_rms_change_conv := uodGetNum uod "bt_dx_rms_change_conv" 1.0e-12
  let bt_pinv_rcond := uodGetNum uod "bt_pinv_rcond" 1.0e-6
  let frag_mode ← stringOptionSet "frag_mode" (uodGetStr uod "FRAG_MODE" "SINGLE")
  let frag_ref_atoms := uodGetD uod "FRAG_REF_ATOMS" .pnone
  let freeze_intrafrag := uodGetBool uod "FREEZE_INTRAFRAG" false
  let interfrag_mode := uodGetStr uod "INTERFRAG_MODE" "FIXED"
  let add_auxiliary_bonds := uodGetBool uod "ADD_AUXILIARY_BONDS" false
  let auxiliary_bond_factor := uodGetNum uod "AUXILIARY_BOND_FACTOR" 2.5
  let interfrag_dist_inv := uodGetBool uod "INTERFRAG_DIST_INV" false
  let interfrag_collinear_tol := uodGetNum uod "INTERFRAG_COLLINEAR_TOL" 0.01
  let interfrag_coords := uodGetD uod "INTERFRAG_COORDS" .pnone
  let frag_mode ←
    if interfrag_coords ≠ PyVal.pnone then stringOptionSet "frag_mode" "MULTI"
    else pure frag_mode
  let covalent_connect := uodGetNum uod "COVALENT_CONNECT" 1.3
  let interfragment_connect := uodGetNum uod "INTERFRAGMENT_CONNECT" 1.8
  let h_bond_connect := uodGetNum uod "h_bond_connect" 4.3
  let generate_intcos_exit := uodGetBool uod "GENERATE_INTCOS_EXIT" false
  let include_oofp := uodGetBool uod "INCLUDE_OOFP" false
  let test_B := uodGetBool uod "TEST_B" false
  let test_derivative_B := uodGetBool uod "TEST_DERIVATIVE_B" false
  let keep_intcos := uodGetBool uod "KEEP_INTCOS" false
  let linesearch_step := uodGetNum uod "LINESEARCH_STEP" 0.100
  let linesearch := uodGetBool uod "LINESEARCH" false
  let sd_hessian := uodGetNum uod "SD_HESSIAN" 1.0
  -- Complicated defaults: assume RFO means P-RFO for transition states.
  let tsPair ←
    if opt_type = "TS" then
      if step_type = "RFO" ∨ !(uodHas uod "STEP_TYPE") then do
        let st ← stringOptionSet "step_type" "RS_I_RFO"
        pure (st, (0.2 : ℚ))
      else pure (step_type, intrafrag_trust)
    else pure (step_type, intrafrag_trust)
  let step_type := tsPair.1
  let intrafrag_trust := tsPair.2
  let geom_maxiter :=
    if !(uodHas uod "GEOM_MAXITER") && decide (opt_type = "IRC") then
      irc_points * geom_maxiter
    else geom_maxiter
  let intrafrag_trust_min :=
    if !(uodHas uod "INTRAFRAG_TRUST_MIN") then
      if opt_coordinates = "BOTH" then intrafrag_trust / 2.0
      else if step_type = "SD" then intrafrag_trust
      else if ext_force_distance ≠ [] ∨ ext_force_bend ≠ [] ∨ ext_force_dihedral ≠ [] ∨
              ext_force_oofp ≠ [] ∨ ext_force_cartesian ≠ [] then
        intrafrag_trust / 2.0
      else intrafrag_trust_min
    else intrafrag_trust_min
  let h_guess_every : Option Bool :=
    if !(uodHas uod "H_GUESS_EVERY") && decide (intrafrag_hess = "LINDH") then some true
    else none
  let cartPair ←
    if opt_coordinates = "CARTESIAN" ∧ !(uodHas uod "INTRAFRAG_HESS") then do
      let ih ← stringOptionSet "intrafrag_hess" "LINDH"
      pure (ih, if !(uodHas uod "H_GUESS_EVERY") then some false else (none : Option Bool))
    else pure (intrafrag_hess, (none : Option Bool))
  let intrafrag_hess := cartPair.1
  let H_guess_every := cartPair.2
  let hess_update ←
    if (opt_type = "TS" ∨ opt_type = "IRC") ∧ !(uodHas uod "HESS_UPDATE") then
      stringOptionSet "hess_update" "BOFILL"
    else pure hess_update
  let print_trajectory_xyz_file : Option Bool :=
    if decide (opt_type = "IRC") && !(uodHas uod "PRINT_TRAJECTORY_XYZ_FILE") then some true
    else none
  -- Read cartesian Hessian by default for IRC: the source assigns a NEW
  -- attribute `read_cartesian_H`, not the `cart_hess_read` attribute.
  let read_cartesian_H : Option Bool :=
    if decide (opt_type = "IRC") && !(uodHas uod "CART_HESS_READ") then some true
    else none
  let keep_intcos := if generate_intcos_exit then true else keep_intcos
  let full_hess_every :=
    if opt_type = "IRC" ∧ full_hess_every < 0 then 0 else full_hess_every
  let consecutive_backsteps_allowed :=
    if decide (step_type = "SD") && !(uodHas uod "CONSECUTIVE_BACKSTEPS") then 10
    else consecutive_backsteps_allowed
  -- Internal optimization parameters and g_convergence presets.
  let c := applyGConvergencePreset g_convergence initConvCriteria
  let c := if uodHas uod "MAX_FORCE_G_CONVERGENCE" then
      { c with i_untampered := false, i_max_force := true, conv_max_force := max_force_g_convergence }
    else c
  let c := if uodHas uod "RMS_FORCE_G_CONVERGENCE" then
      { c with i_untampered := false, i_rms_force := true, conv_rms_force := rms_force_g_convergence }
    else c
  let c := if uodHas uod "MAX_ENERGY_G_CONVERGENCE" then
      { c with i_untampered := false, i_max_DE := true, conv_max_DE := max_energy_g_convergence }
    else c
  let c := if uodHas uod "MAX_DISP_G_CONVERGENCE" then
      { c with i_untampered := false, i_max_disp := true, conv_max_disp := max_disp_g_convergence }
    else c
  let c := if uodHas uod "RMS_DISP_G_CONVERGENCE" then
      { c with i_untampered := false, i_rms_disp := true, conv_rms_disp := rms_disp_g_convergence }
    else c
  let c := if flexible_g_convergence then { c with i_untampered := true } else c
  pure {
    program := program, geom_maxiter := geom_maxiter, alg_geom_maxiter := alg_geom_maxiter
    print_lvl := print_lvl, output_type := output_type, opt_type := opt_type
    step_type := step_type, steepest_descent_type := steepest_descent_type
    conjugate_gradient_type := conjugate_gradient_type, opt_coordinates := opt_coordinates
    rfo_follow_root := rfo_follow_root, rfo_root := rfo_root
    accept_symmetry_breaking := accept_symmetry_breaking, dynamic_level := dynamic_level
    dynamic_level_max := dynamic_level_max, irc_step_size := irc_step_size
    irc_direction := irc_direction, irc_points := irc_points
    intrafrag_trust := intrafrag_trust, intrafrag_trust_min := intrafrag_trust_min
    intrafrag_trust_max := intrafrag_trust_max, interfrag_trust := interfrag_trust
    interfrag_trust_min := interfrag_trust_min, interfrag_trust_max := interfrag_trust_max
    ensure_bt_convergence := ensure_bt_convergence, simple_step_scaling := simple_step_scaling
    consecutive_backsteps_allowed := consecutive_backsteps_allowed
    working_consecutive_backsteps := 0
    rfo_normalization_max := rfo_normalization_max, rsrfo_alpha_max := rsrfo_alpha_max
    trajectory := trajectory, frozen_distance := frozen_distance, frozen_bend := frozen_bend
    frozen_dihedral := frozen_dihedral, frozen_oofp := frozen_oofp
    frozen_cartesian := frozen_cartesian, ranged_distance := ranged_distance
    ranged_bend := ranged_bend, ranged_dihedral := ranged_dihedral, ranged_oofp := ranged_oofp
    ranged_cartesian := ranged_cartesian, ext_force_distance := ext_force_distance
    ext_force_bend := ext_force_bend, ext_force_dihedral := ext_force_dihedral
    ext_force_oofp := ext_force_oofp, ext_force_cartesian := ext_force_cartesian
    g_convergence := g_convergence, max_force_g_convergence := max_force_g_convergence
    rms_force_g_convergence := rms_force_g_convergence
    max_energy_g_convergence := max_energy_g_convergence
    max_disp_g_convergence := max_disp_g_convergence
    rms_disp_g_convergence := rms_disp_g_convergence
    flexible_g_convergence := flexible_g_convergence, hess_update := hess_update
    hess_update_use_last := hess_update_use_last, hess_update_limit := hess_update_limit
    hess_update_limit_max := hess_update_limit_max
    hess_update_limit_scale := hess_update_limit_scale
    hess_update_den_tol := hess_update_den_tol, hess_update_dq_tol := 0.5
    cart_hess_read := cart_hess_read, hessian_file := hessian_file
    full_hess_every := full_hess_every, intrafrag_hess := intrafrag_hess
    working_steps_since_last_H := 0, bt_max_iter := bt_max_iter, bt_dx_conv := bt_dx_conv
    bt_dx_rms_change_conv := bt_dx_rms_change_conv, bt_pinv_rcond := bt_pinv_rcond
    frag_mode := frag_mode, frag_ref_atoms := frag_ref_atoms
    freeze_intrafrag := freeze_intrafrag, interfrag_mode := interfrag_mode
    add_auxiliary_bonds := add_auxiliary_bonds, auxiliary_bond_factor := auxiliary_bond_factor
    interfrag_dist_inv := interfrag_dist_inv, interfrag_collinear_tol := interfrag_collinear_tol
    interfrag_coords := interfrag_coords, covalent_connect := covalent_connect
    interfragment_connect := interfragment_connect, h_bond_connect := h_bond_connect
    generate_intcos_exit := generate_intcos_exit, include_oofp := include_oofp
    test_B := test_B, test_derivative_B := test_derivative_B, keep_intcos := keep_intcos
    linesearch_step := linesearch_step, linesearch := linesearch, sd_hessian := sd_hessian
    fix_val_near_pi := 1.57, v3d_tors_angle_lim := 0.017, v3d_tors_cos_tol := 1e-10
    linear_bend_threshold := 3.05, small_bend_fix_threshold := 0.35
    redundant_eval_tol := 1.0e-10, conv := c
    h_guess_every := h_guess_every, H_guess_every := H_guess_every
    print_trajectory_xyz_file := print_trajectory_xyz_file
    read_cartesian_H := read_cartesian_H
    consecutiveBackstepsAllowed := none }

/-- The dynamic-level fallback transition
(`OptParams.update_dynamic_level_params`, optparams.py lines 621-692).
Enumerated-string attributes are assigned through their property setter.
The backstep allowance is written to the (new, camel-case) attribute
`consecutiveBackstepsAllowed`, exactly as in the source. -/
def updateDynamicLevelParams (p : OptParams) (run_level : ℤ) : Except PyErr OptParams :=
  if run_level = 0 then pure p
  else if run_level = 1 then do
    let oc ← stringOptionSet "opt_coordinates" "REDUNDANT"
    let st ← stringOptionSet "step_type" "RFO"
    pure { p with opt_coordinates := oc, consecutiveBackstepsAllowed := some 0
                  step_type := st }
  else if run_level = 2 then do
    let oc ← stringOptionSet "opt_coordinates" "REDUNDANT"
    let st ← stringOptionSet "step_type" "RFO"
    pure { p with opt_coordinates := oc, consecutiveBackstepsAllowed := some 2
                  step_type := st, intrafrag_trust := 0.2
                  intrafrag_trust_min := 0.2, intrafrag_trust_max := 0.2 }
  else if run_level = 3 then do
    let oc ← stringOptionSet "opt_coordinates" "BOTH"
    let st ← stringOptionSet "step_type" "RFO"
    pure { p with opt_coordinates := oc, consecutiveBackstepsAllowed := some 2
                  step_type := st, intrafrag_trust := 0.1
                  intrafrag_trust_min := 0.1, intrafrag_trust_max := 0.1 }
  else if run_level = 4 then do
    let oc ← stringOptionSet "opt_coordinates" "CARTESIAN"
    let st ← stringOptionSet "step_type" "RFO"
    let ih ← stringOptionSet "intrafrag_hess" "LINDH"
    pure { p with opt_coordinates := oc, consecutiveBackstepsAllowed := some 2
                  step_type := st, intrafrag_hess := ih, intrafrag_trust := 0.2
                  intrafrag_trust_min := 0.2, intrafrag_trust_max := 0.2 }
  else if run_level = 5 then do
    let oc ← stringOptionSet "opt_coordinates" "CARTESIAN"
    let st ← stringOptionSet "step_type" "SD"
    pure { p with opt_coordinates := oc, consecutiveBackstepsAllowed := some 2
                  step_type := st, sd_hessian := 0.3, intrafrag_trust := 0.3
                  intrafrag_trust_min := 0.3, intrafrag_trust_max := 0.3 }
  else if run_level = 6 then do
    let oc ← stringOptionSet "opt_coordinates" "CARTESIAN"
    let st ← stringOptionSet "step_type" "SD"
    pure { p with opt_coordinates := oc, consecutiveBackstepsAllowed := some 2
                  step_type := st, sd_hessian := 0.6, intrafrag_trust := 0.1
                  intrafrag_trust_min := 0.1, intrafrag_trust_max := 0.1 }
  else throw (.optError "Unknown value of run_level")

/-- JSON value (the molecular-computation document of qcdbjson.py). -/
inductive JSONVal where
  | jstr (s : String)
  | jnum (q : ℚ)
  | jbool (b : Bool)
  | jnull
  | jarr (l : List JSONVal)
  | jobj (l : List (String × JSONVal))

/-- Python dict lookup on a JSON object body (first match wins). -/
def objGet : List (String × JSONVal) → String → Option JSONVal
  | [], _ => none
  | (k, v) :: rest, key => if k = key then some v else objGet rest key

/-- Python dict assignment on a JSON object body: replaces the value in place
when the key exists, appends otherwise. -/
def objSet : List (String × JSONVal) → String → JSONVal → List (String × JSONVal)
  | [], key, v => [(key, v)]
  | (k, v0) :: rest, key, v =>
    if k = key then (key, v) :: rest else (k, v0) :: objSet rest key v

/-- Lookup `d[k]` on a JSON value, `none` when `d` is not an object or lacks
the key. -/
def jget (d : JSONVal) (key : String) : Option JSONVal :=
  match d with
  | .jobj l => objGet l key
  | _ => none

/-- Python `d[k] = v` on a JSON value (TypeError when `d` not an object). -/
def jsetTop (d : JSONVal) (key : String) (v : JSONVal) : Except PyErr JSONVal :=
  match d with
  | .jobj l => .ok (.jobj (objSet l key v))
  | _ => .error .typeError

/-- Python `d[k1][k2] = v`: gets `d[k1]` (KeyError when missing, TypeError
when not an object) and assigns key `k2` in it. -/
def jsetNested (d : JSONVal) (k1 k2 : String) (v : JSONVal) : Except PyErr JSONVal :=
  match d with
  | .jobj l =>
    match objGet l k1 with
    | some (.jobj m) => .ok (.jobj (objSet l k1 (.jobj (objSet m k2 v))))
    | some _ => .error .typeError
    | none => .error (.keyError k1)
  | _ => .error .typeError

/-- Python truth of `d['schema_name'] == 'qc_schema_input'` given the stored
value. -/
def isSchemaInput : JSONVal → Bool
  | .jstr s => s = "qc_schema_input"
  | _ => false

/-- `jsonSchema.__init__` (qcdbjson.py lines 12-18): requires schema_name
"qc_schema_input", then deep-copies the document and forces
molecule.fix_com and molecule.fix_orientation to true. Deep copies of pure
values are the values themselves; the result is the stored `optking_json`. -/
def jsonSchemaInit (d : JSONVal) : Except PyErr JSONVal :=
  match d with
  | .jobj _ =>
    match jget d "schema_name" with
    | some v =>
      if isSchemaInput v then do
        let d1 ← jsetNested d "molecule" "fix_com" (.jbool true)
        jsetNested d1 "molecule" "fix_orientation" (.jbool true)
      else .error (.valueError "JSON file must match the qc_schema_input")
    | none => .error (.keyError "schema_name")
  | _ => .error .typeError

/-- `jsonSchema.update_geom_and_driver` (qcdbjson.py lines 23-41): writes the
new geometry into the stored document, deep-copies it, sets `driver` on the
copy, and returns (new stored document, returned request document). -/
def update_geom_and_driver (stored : JSONVal) (geom : JSONVal) (driver : String) :
    Except PyErr (JSONVal × JSONVal) := do
  let stored1 ← jsetNested stored "molecule" "geometry" geom
  let out ← jsetTop stored1 "driver" (.jstr driver)
  pure (stored1, out)

/-- `jsonSchema.find_optking_options` (qcdbjson.py lines 44-52): pops the
`optimizer` sub-mapping out of the stored document's keywords and returns it
(new stored document, extracted options); returns an empty mapping when no
optimizer key is present. -/
def find_optking_options (stored : JSONVal) : Except PyErr (JSONVal × JSONVal) :=
  match stored with
  | .jobj l =>
    match objGet l "keywords" with
    | some (.jobj kw) =>
      match objGet kw "optimizer" with
      | some opts =>
        .ok (.jobj (objSet l "keywords" (.jobj (kw.filter (fun p => p.1 ≠ "optimizer")))), opts)
      | none => .ok (.jobj l, .jobj [])
    | some _ => .error .typeError
    | none => .error (.keyError "keywords")
  | _ => .error .typeError

/-- The torsion atom-tuple canonicalization (tors.py `TORS.__init__`):
store (a,b,c,d) when a < d, else the reversed tuple (d,c,b,a). -/
def torsCanonAtoms (a b c d : ℕ) : List ℕ :=
  if a < d then [a, b, c, d] else [d, c, b, a]

/-- A torsion-angle internal coordinate. The atom tuple, frozen flag and
fixed equilibrium value are stored by the SIMPLE base class
(modelled from the spec §4.7/§4.8; simple.py is not in the supplied sources);
`near180` is the private orientation memory, initially 0. -/
structure TORS where
  atoms : List ℕ
  frozen : Bool
  fixedEqVal : Option ℚ
  near180 : ℤ

/-- `TORS.__init__` (tors.py lines 10-16). -/
def TORS.mk4 (a b c d : ℕ) (frozen : Bool) (fixedEqVal : Option ℚ) : TORS :=
  { atoms := torsCanonAtoms a b c d, frozen := frozen
    fixedEqVal := fixedEqVal, near180 := 0 }

/-- An internal-coordinate object as seen by `TORS.__eq__`: either a torsion
or some other (non-torsion) internal coordinate; per the base abstraction
(spec §4.7) every internal coordinate carries an atom tuple. -/
inductive IntcoObj where
  | torsObj (t : TORS)
  | otherIntco (atoms : List ℕ)

/-- The `atoms` attribute of the compared object. -/
def IntcoObj.atomsOf : IntcoObj → List ℕ
  | .torsObj t => t.atoms
  | .otherIntco l => l

/-- Python `isinstance(other, TORS)`. -/
def IntcoObj.isTors : IntcoObj → Bool
  | .torsObj _ => true
  | .otherIntco _ => false

/-- `TORS.__eq__` (tors.py lines 29-32): unequal atom tuples compare false,
then non-torsions compare false, else true. -/
def TORS.eqPy (self : TORS) (other : IntcoObj) : Bool :=
  if self.atoms ≠ other.atomsOf then false
  else if ¬ other.isTors then false
  else true

/-- The fixed boundary `fix_val_near_pi` = 1.57 rad (optparams.py line 445,
read by tors.py as `op.Params.fix_val_near_pi`). -/
def fixValNearPi : ℚ := 1.57

/-- The double-precision value of the π constant supplied by the
physical-constants provider (modelled from the spec §4.1; physconst.py is not
in the supplied sources). -/
def piFloat : ℚ := 3.141592653589793

/-- The branch-cut unwrapping applied by `TORS.q` (tors.py lines 67-79) to the
raw dihedral value `tau` returned by the vector-algebra torsion routine:
near180 = -1 and tau > fix_val_near_pi gives tau - 2π; near180 = +1 and
tau < -fix_val_near_pi gives tau + 2π; otherwise tau unchanged. -/
def torsWrapQ (near180 : ℤ) (tau : ℚ) : ℚ :=
  if near180 = -1 ∧ tau > fixValNearPi then tau - 2 * piFloat
  else if near180 = 1 ∧ tau < -fixValNearPi then tau + 2 * piFloat
  else tau

/-- `TORS.updateOrientation` (tors.py lines 39-47): the new value of the
`near180` memory after observing a geometry whose (unwrapped) torsion value is
`torsWrapQ near180 tau`. -/
def updateOrientationVal (near180 : ℤ) (tau : ℚ) : ℤ :=
  if torsWrapQ near180 tau > fixValNearPi then 1
  else if torsWrapQ near180 tau < -fixValNearPi then -1
  else 0

/-- A 3-component Cartesian vector (real-valued: the derivative code takes
square roots). -/
structure V3 where
  x : ℝ
  y : ℝ
  z : ℝ

/-- Indexed component access `v[i]` (i = 0, 1, 2). -/
def V3.get (v : V3) : ℕ → ℝ
  | 0 => v.x
  | 1 => v.y
  | 2 => v.z
  | _ + 3 => 0

/-- Vector difference `p - q`. -/
def vsub (p q : V3) : V3 :=
  ⟨p.x - q.x, p.y - q.y, p.z - q.z⟩

/-- Vector negation. -/
def vneg (p : V3) : V3 :=
  ⟨-p.x, -p.y, -p.z⟩

/-- Scalar multiple (the in-place `u *= 1.0/Lu` of the source). -/
def smulV (c : ℝ) (v : V3) : V3 :=
  ⟨c * v.x, c * v.y, c * v.z⟩

/-- Modelled from the spec (§4.2; v3d.py is not in the supplied sources):
3-vector dot product. -/
def dotp (u v : V3) : ℝ :=
  u.x * v.x + u.y * v.y + u.z * v.z

/-- Modelled from the spec (§4.2): 3-vector cross product. -/
def crossp (u v : V3) : V3 :=
  ⟨u.y * v.z - u.z * v.y, u.z * v.x - u.x * v.z, u.x * v.y - u.y * v.x⟩

/-- Modelled from the spec (§4.2): Euclidean length. -/
noncomputable def nrm (p : V3) : ℝ :=
  Real.sqrt (dotp p p)

/-- The four atom positions a torsion's derivative code works on, in the
stored order (A,B,C,D). -/
structure Geo4 where
  pA : V3
  pB : V3
  pC : V3
  pD : V3

/-- The same four positions in reversed atom order (D,C,B,A). -/
def grev (g : Geo4) : Geo4 :=
  ⟨g.pD, g.pC, g.pB, g.pA⟩

/-- Length Lu of the bond vector u = A - B (tors.py DqDx/Dq2Dx2). -/
noncomputable def tLu (g : Geo4) : ℝ := nrm (vsub g.pA g.pB)

/-- Length Lv of the bond vector v = D - C. -/
noncomputable def tLv (g : Geo4) : ℝ := nrm (vsub g.pD g.pC)

/-- Length Lw of the bond vector w = C - B. -/
noncomputable def tLw (g : Geo4) : ℝ := nrm (vsub g.pC g.pB)

/-- Normalized u (eBA). -/
noncomputable def tU (g : Geo4) : V3 := smulV (1 / tLu g) (vsub g.pA g.pB)

/-- Normalized v (eCD). -/
noncomputable def tV (g : Geo4) : V3 := smulV (1 / tLv g) (vsub g.pD g.pC)

/-- Normalized w (eBC). -/
noncomputable def tW (g : Geo4) : V3 := smulV (1 / tLw g) (vsub g.pC g.pB)

/-- cos_u = u · w (normalized vectors). -/
noncomputable def tCosU (g : Geo4) : ℝ := dotp (tU g) (tW g)

/-- cos_v = -(v · w) (normalized vectors). -/
noncomputable def tCosV (g : Geo4) : ℝ := - dotp (tV g) (tW g)

/-- sin_u = sqrt(1 - cos_u²). -/
noncomputable def tSinU (g : Geo4) : ℝ := Real.sqrt (1 - tCosU g * tCosU g)

/-- sin_v = sqrt(1 - cos_v²). -/
noncomputable def tSinV (g : Geo4) : ℝ := Real.sqrt (1 - tCosV g * tCosV g)

/-- uXw = u × w. -/
noncomputable def tUXW (g : Geo4) : V3 := crossp (tU g) (tW g)

/-- vXw = v × w. -/
noncomputable def tVXW (g : Geo4) : V3 := crossp (tV g) (tW g)

/-- The degeneracy guard of DqDx and Dq2Dx2 (tors.py lines 96, 149): one of
the contained bend angles is at 0 or 180 degrees. -/
abbrev torsDerivGuard (g : Geo4) : Prop :=
  1 - tCosU g * tCosU g ≤ 1e-12 ∨ 1 - tCosV g * tCosV g ≤ 1e-12

/-- `TORS.zeta` (tors.py lines 60-64): +1 when a = m, -1 when a = n, else 0. -/
def zetaR (a m n : ℕ) : ℝ :=
  if a = m then 1 else if a = n then -1 else 0

/-- The value DqDx accumulates for relative atom `a` and Cartesian axis `i`
(tors.py lines 105-121): the four zeta-gated terms of the loop body. -/
noncomputable def torsGradTval (g : Geo4) (a i : ℕ) : ℝ :=
  (if a = 0 ∨ a = 1 then
      zetaR a 0 1 * (tUXW g).get i / (tLu g * tSinU g * tSinU g)
    else 0)
  + (if a = 2 ∨ a = 3 then
      zetaR a 2 3 * (tVXW g).get i / (tLv g * tSinV g * tSinV g)
    else 0)
  + (if a = 1 ∨ a = 2 then
      zetaR a 1 2 * (tUXW g).get i * tCosU g / (tLw g * tSinU g * tSinU g)
    else 0)
  + (if a = 1 ∨ a = 2 then
      - zetaR a 2 1 * (tVXW g).get i * tCosV g / (tLw g * tSinV g * tSinV g)
    else 0)

/-- The four positions a torsion reads out of the full geometry, in stored
atom order (`geom[self.A]` … `geom[self.D]`; the A..D accessors of the SIMPLE
base are the stored tuple's entries, modelled from the spec §4.8). -/
def TORS.geo4 (t : TORS) (geom : ℕ → V3) : Geo4 :=
  ⟨geom (t.atoms.getD 0 0), geom (t.atoms.getD 1 0),
   geom (t.atoms.getD 2 0), geom (t.atoms.getD 3 0)⟩

/-- `TORS.DqDx` (tors.py lines 81-126) as a buffer transformer: returns the
caller's buffer unchanged at the degeneracy guard, else writes the twelve
accumulated values at `3*B+i` (full atom index) or `3*a+i` (mini). -/
noncomputable def TORS.DqDx (t : TORS) (geom : ℕ → V3) (dqdx : ℕ → ℝ)
    (mini : Bool) : ℕ → ℝ :=
  let g := t.geo4 geom
  if torsDerivGuard g then dqdx
  else
    ((List.range 4).flatMap (fun a => (List.range 3).map (fun i => (a, i)))).foldl
      (fun buf p =>
        Function.update buf
          (if mini then 3 * p.1 + p.2 else 3 * (t.atoms.getD p.1 0) + p.2)
          (torsGradTval g p.1 p.2))
      dqdx

/-- The value Dq2Dx2 accumulates for relative atoms `a`, `b` and Cartesian
axes `i`, `j` (tors.py lines 167-221): the ten zeta-gated terms of the loop
body (u, v, w are the normalized vectors). -/
noncomputable def torsHessTval (g : Geo4) (a b i j : ℕ) : ℝ :=
  (if (a = 0 ∧ b = 0) ∨ (a = 1 ∧ b = 0) ∨ (a = 1 ∧ b = 1) then
      zetaR a 0 1 * zetaR b 0 1 *
        ((tUXW g).get i * ((tW g).get j * tCosU g - (tU g).get j)
          + (tUXW g).get j * ((tW g).get i * tCosU g - (tU g).get i))
        / (tLu g * tLu g * (tSinU g * tSinU g * tSinU g * tSinU g))
    else 0)
  + (if (a = 3 ∧ b = 3) ∨ (a = 3 ∧ b = 2) ∨ (a = 2 ∧ b = 2) then
      zetaR a 3 2 * zetaR b 3 2 *
        ((tVXW g).get i * ((tW g).get j * tCosV g + (tV g).get j)
          + (tVXW g).get j * ((tW g).get i * tCosV g + (tV g).get i))
        / (tLv g * tLv g * (tSinV g * tSinV g * tSinV g * tSinV g))
    else 0)
  + (if (a = 1 ∧ b = 1) ∨ (a = 2 ∧ b = 1) ∨ (a = 2 ∧ b = 0) ∨ (a = 1 ∧ b = 0) then
      (zetaR a 0 1 * zetaR b 1 2 + zetaR a 2 1 * zetaR b 1 0) *
        ((tUXW g).get i * ((tW g).get j - 2 * (tU g).get j * tCosU g
            + (tW g).get j * tCosU g * tCosU g)
          + (tUXW g).get j * ((tW g).get i - 2 * (tU g).get i * tCosU g
            + (tW g).get i * tCosU g * tCosU g))
        / (2 * tLu g * tLw g * (tSinU g * tSinU g * tSinU g * tSinU g))
    else 0)
  + (if (a = 3 ∧ b = 2) ∨ (a = 3 ∧ b = 1) ∨ (a = 2 ∧ b = 2) ∨ (a = 2 ∧ b = 1) then
      (zetaR a 3 2 * zetaR b 2 1 + zetaR a 1 2 * zetaR b 2 3) *
        ((tVXW g).get i * ((tW g).get j + 2 * (tV g).get j * tCosV g
            + (tW g).get j * tCosV g * tCosV g)
          + (tVXW g).get j * ((tW g).get i + 2 * (tV g).get i * tCosV g
            + (tW g).get i * tCosV g * tCosV g))
        / (2 * tLv g * tLw g * (tSinV g * tSinV g * tSinV g * tSinV g))
    else 0)
  + (if (a = 1 ∧ b = 1) ∨ (a = 2 ∧ b = 2) ∨ (a = 2 ∧ b = 1) then
      zetaR a 1 2 * zetaR b 2 1 *
        ((tUXW g).get i * ((tU g).get j + (tU g).get j * tCosU g * tCosU g
            - 3 * (tW g).get j * tCosU g + (tW g).get j * (tCosU g * tCosU g * tCosU g))
          + (tUXW g).get j * ((tU g).get i + (tU g).get i * tCosU g * tCosU g
            - 3 * (tW g).get i * tCosU g + (tW g).get i * (tCosU g * tCosU g * tCosU g)))
        / (2 * tLw g * tLw g * (tSinU g * tSinU g * tSinU g * tSinU g))
    else 0)
  + (if (a = 2 ∧ b = 1) ∨ (a = 2 ∧ b = 2) ∨ (a = 1 ∧ b = 1) then
      zetaR a 2 1 * zetaR b 1 2 *
        ((tVXW g).get i * (-(tV g).get j - (tV g).get j * tCosV g * tCosV g
            - 3 * (tW g).get j * tCosV g + (tW g).get j * (tCosV g * tCosV g * tCosV g))
          + (tVXW g).get j * (-(tV g).get i - (tV g).get i * tCosV g * tCosV g
            - 3 * (tW g).get i * tCosV g + (tW g).get i * (tCosV g * tCosV g * tCosV g)))
        / (2 * tLw g * tLw g * (tSinV g * tSinV g * tSinV g * tSinV g))
    else 0)
  + (if a ≠ b ∧ i ≠ j then
      let k : ℕ := if i ≠ 0 ∧ j ≠ 0 then 0 else if i ≠ 1 ∧ j ≠ 1 then 1 else 2
      let dji : ℝ := (j : ℝ) - (i : ℝ)
      let pw : ℝ := (-0.5 : ℝ) ^ (Int.natAbs ((j : ℤ) - (i : ℤ)))
      (if a = 1 ∧ b = 1 then
          zetaR a 0 1 * zetaR b 1 2 * dji * pw *
            ((tW g).get k * tCosU g - (tU g).get k) / (tLu g * tLw g * tSinU g * tSinU g)
        else 0)
      + (if (a = 3 ∧ b = 2) ∨ (a = 3 ∧ b = 1) ∨ (a = 2 ∧ b = 2) ∨ (a = 2 ∧ b = 1) then
          zetaR a 3 2 * zetaR b 2 1 * dji * pw *
            (-(tW g).get k * tCosV g - (tV g).get k) / (tLv g * tLw g * tSinV g * tSinV g)
        else 0)
      + (if (a = 2 ∧ b = 1) ∨ (a = 2 ∧ b = 0) ∨ (a = 1 ∧ b = 1) ∨ (a = 1 ∧ b = 0) then
          zetaR a 2 1 * zetaR b 1 0 * dji * pw *
            (-(tW g).get k * tCosU g + (tU g).get k) / (tLu g * tLw g * tSinU g * tSinU g)
        else 0)
      + (if a = 2 ∧ b = 2 then
          zetaR a 1 2 * zetaR b 2 3 * dji * pw *
            ((tW g).get k * tCosV g + (tV g).get k) / (tLv g * tLw g * tSinV g * tSinV g)
        else 0)
    else 0)

/-- Symmetric double write `x[r][c] = x[c][r] = val` on a matrix buffer. -/
def updSym (buf : ℕ → ℕ → ℝ) (r c : ℕ) (val : ℝ) : ℕ → ℕ → ℝ :=
  fun r' c' => if (r' = r ∧ c' = c) ∨ (r' = c ∧ c' = r) then val else buf r' c'

/-- `TORS.Dq2Dx2` (tors.py lines 134-225) as a buffer transformer: returns the
caller's matrix unchanged at the degeneracy guard, else writes the symmetric
second-derivative entries at full atom indices. -/
noncomputable def TORS.Dq2Dx2 (t : TORS) (geom : ℕ → V3) (dq2dx2 : ℕ → ℕ → ℝ) :
    ℕ → ℕ → ℝ :=
  let g := t.geo4 geom
  if torsDerivGuard g then dq2dx2
  else
    ((List.range 4).flatMap (fun a => (List.range (a + 1)).flatMap (fun b =>
      (List.range 3).flatMap (fun i => (List.range 3).map (fun j => (a, b, i, j)))))).foldl
      (fun buf q =>
        updSym buf (3 * (t.atoms.getD q.1 0) + q.2.2.1) (3 * (t.atoms.getD q.2.1 0) + q.2.2.2)
          (torsHessTval g q.1 q.2.1 q.2.2.1 q.2.2.2))
      dq2dx2

/-- An example molecule object body for the JSON adapter instance. -/
def exampleMolecule : List (String × JSONVal) :=
  [("geometry", .jarr [.jnum 1, .jnum 2]), ("symbols", .jarr [.jstr "H", .jstr "H"])]

/-- An example qc_schema_input document. -/
def exampleQCDoc : JSONVal :=
  .jobj [("schema_name", .jstr "qc_schema_input"), ("schema_version", .jnum 1),
         ("molecule", .jobj exampleMolecule), ("driver", .jstr ""),
         ("model", .jobj [("method", .jstr "hf"), ("basis", .jstr "sto-3g")]),
         ("keywords", .jobj [])]

/-- An example replacement geometry. -/
def exampleNewGeom : JSONVal := .jarr [.jnum 3, .jnum 4]

/-- A geometry whose A-B-C bend is exactly 180 degrees (A, B, C collinear). -/
def geomCollinear : ℕ → V3 := fun n =>
  if n = 0 then ⟨-1, 0, 0⟩ else if n = 1 then ⟨0, 0, 0⟩
  else if n = 2 then ⟨1, 0, 0⟩ else ⟨1, 1, 0⟩

/-- A non-degenerate geometry with right-angle bends and unit bond lengths. -/
def geomOrthogonal : ℕ → V3 := fun n =>
  if n = 0 then ⟨0, 1, 0⟩ else if n = 1 then ⟨0, 0, 0⟩
  else if n = 2 then ⟨1, 0, 0⟩ else ⟨1, 0, 1⟩

/-- A concrete configuration object holding the literal defaults, used as an
example instance. -/
def exampleOptParams : OptParams := {}

theorem objGet_objSet_self (l : List (String × JSONVal)) (k : String) (v : JSONVal) :
    objGet (objSet l k v) k = some v := by
  induction l with
  | nil => simp [objSet, objGet]
  | cons hd tl ih =>
    obtain ⟨k0, v0⟩ := hd
    by_cases h : k0 = k
    · simp [objSet, objGet, h]
    · simp [objSet, objGet, h, ih]

theorem objGet_objSet_ne (l : List (String × JSONVal)) (k k' : String) (v : JSONVal)
    (h : k' ≠ k) : objGet (objSet l k' v) k = objGet l k := by
  induction l with
  | nil =>
    simp only [objSet, objGet]
    rw [if_neg h]
  | cons hd tl ih =>
    obtain ⟨k0, v0⟩ := hd
    by_cases h0 : k0 = k'
    · subst h0
      simp [objSet, objGet, h]
    · by_cases h1 : k0 = k
      · subst h1
        simp only [objSet, objGet]
        rw [if_neg (Ne.symm h)]
        simp [objGet]
      · simp [objSet, objGet, h0, h1, ih]

theorem vsub_antisymm (p q : V3) : vsub q p = vneg (vsub p q) := by
  simp only [vsub, vneg, V3.mk.injEq]
  exact ⟨by ring, by ring, by ring⟩

theorem dotp_vneg_right (u v : V3) : dotp u (vneg v) = - dotp u v := by
  simp only [dotp, vneg]; ring

theorem crossp_vneg_right (u v : V3) : crossp u (vneg v) = vneg (crossp u v) := by
  simp only [crossp, vneg, V3.mk.injEq]
  exact ⟨by ring, by ring, by ring⟩

theorem smulV_vneg (c : ℝ) (v : V3) : smulV c (vneg v) = vneg (smulV c v) := by
  simp only [smulV, vneg, V3.mk.injEq]
  exact ⟨by ring, by ring, by ring⟩

theorem get_vneg (v : V3) (i : ℕ) : (vneg v).get i = -(v.get i) := by
  match i with
  | 0 => simp [V3.get, vneg]
  | 1 => simp [V3.get, vneg]
  | 2 => simp [V3.get, vneg]
  | n + 3 => simp [V3.get]

theorem nrm_vsub_antisymm (p q : V3) : nrm (vsub q p) = nrm (vsub p q) := by
  rw [vsub_antisymm]
  unfold nrm
  congr 1
  simp only [dotp, vneg]
  ring

theorem tLu_grev (g : Geo4) : tLu (grev g) = tLv g := rfl

theorem tLv_grev (g : Geo4) : tLv (grev g) = tLu g := rfl

theorem tLw_grev (g : Geo4) : tLw (grev g) = tLw g := by
  show nrm (vsub g.pB g.pC) = nrm (vsub g.pC g.pB)
  exact nrm_vsub_antisymm g.pC g.pB

theorem tU_grev (g : Geo4) : tU (grev g) = tV g := rfl

theorem tV_grev (g : Geo4) : tV (grev g) = tU g := rfl

theorem tW_grev (g : Geo4) : tW (grev g) = vneg (tW g) := by
  show smulV (1 / tLw (grev g)) (vsub g.pB g.pC) = _
  rw [tLw_grev, vsub_antisymm g.pC g.pB, smulV_vneg]
  rfl

theorem tCosU_grev (g : Geo4) : tCosU (grev g) = tCosV g := by
  show dotp (tU (grev g)) (tW (grev g)) = _
  rw [tU_grev, tW_grev, dotp_vneg_right]
  rfl

theorem tCosV_grev (g : Geo4) : tCosV (grev g) = tCosU g := by
  show - dotp (tV (grev g)) (tW (grev g)) = _
  rw [tV_grev, tW_grev, dotp_vneg_right, neg_neg]
  rfl

theorem tSinU_grev (g : Geo4) : tSinU (grev g) = tSinV g := by
  show Real.sqrt (1 - tCosU (grev g) * tCosU (grev g)) = _
  rw [tCosU_grev]
  rfl

theorem tSinV_grev (g : Geo4) : tSinV (grev g) = tSinU g := by
  show Real.sqrt (1 - tCosV (grev g) * tCosV (grev g)) = _
  rw [tCosV_grev]
  rfl

theorem tUXW_grev (g : Geo4) : tUXW (grev g) = vneg (tVXW g) := by
  show crossp (tU (grev g)) (tW (grev g)) = _
  rw [tU_grev, tW_grev, crossp_vneg_right]
  rfl

theorem tVXW_grev (g : Geo4) : tVXW (grev g) = vneg (tUXW g) := by
  show crossp (tV (grev g)) (tW (grev g)) = _
  rw [tV_grev, tW_grev, crossp_vneg_right]
  rfl

theorem torsDerivGuard_grev (g : Geo4) : torsDerivGuard (grev g) ↔ torsDerivGuard g := by
  unfold torsDerivGuard
  rw [tCosU_grev, tCosV_grev]
  exact Or.comm

theorem torsGradTval_grev (g : Geo4) (i : ℕ) :
    ∀ a, a < 4 → torsGradTval (grev g) a i = torsGradTval g (3 - a) i := by
  intro a ha
  interval_cases a <;>
    simp [torsGradTval, zetaR, tCosU_grev, tCosV_grev, tSinU_grev, tSinV_grev,
          tLu_grev, tLv_grev, tLw_grev, tUXW_grev, tVXW_grev, get_vneg] <;>
    ring

theorem DqDx_unfold (t : TORS) (geom : ℕ → V3) (buf : ℕ → ℝ) (mini : Bool) :
    TORS.DqDx t geom buf mini =
      if torsDerivGuard (t.geo4 geom) then buf
      else
        [((0 : ℕ), (0 : ℕ)), (0, 1), (0, 2), (1, 0), (1, 1), (1, 2),
         (2, 0), (2, 1), (2, 2), (3, 0), (3, 1), (3, 2)].foldl
          (fun b p => Function.update b
            (if mini then 3 * p.1 + p.2 else 3 * (t.atoms.getD p.1 0) + p.2)
            (torsGradTval (t.geo4 geom) p.1 p.2)) buf := rfl

/-- Claim C1. The claim states option-key lookup during configuration
construction is case-insensitive, so {"opt_type": "TS"} and
{"OPT_TYPE": "TS"} would produce identical settings. The code's lookup
(`uod.get`) is an exact, case-sensitive dictionary lookup against the literal
key "OPT_TYPE", so the lower-case dictionary leaves opt_type at its default
"MIN" while the upper-case one yields "TS": the two configuration objects
differ, refuting the claim (and contradicting the module's own header
comment, optparams.py line 5). -/
theorem uod_key_lookup_case_sensitive :
    (buildOptParams [("opt_type", PyVal.pstr "TS")]).map (fun p => p.opt_type) =
      .ok "MIN"
    ∧ (buildOptParams [("OPT_TYPE", PyVal.pstr "TS")]).map (fun p => p.opt_type) =
      .ok "TS" :=
  ⟨rfl, rfl⟩

/-- Claim C3. Calling the dynamic-level transition with run_level 2 on a
default-constructed configuration yields opt_coordinates "REDUNDANT",
step_type "RFO", all three intrafrag trust values 0.2, and writes 2 into the
consecutive-backsteps-allowed attribute the method assigns
(`consecutiveBackstepsAllowed`); run_level 9 fails with OptError. -/
theorem dynamic_level_two_settings :
    ((buildOptParams []).bind (fun p => updateDynamicLevelParams p 2)).map
      (fun p => (p.opt_coordinates, p.step_type, p.intrafrag_trust,
                 p.intrafrag_trust_min, p.intrafrag_trust_max,
                 p.consecutiveBackstepsAllowed)) =
      .ok ("REDUNDANT", "RFO", 0.2, 0.2, 0.2, some 2)
    ∧ (buildOptParams []).bind (fun p => updateDynamicLevelParams p 9) =
      .error (.optError "Unknown value of run_level") :=
  ⟨rfl, rfl⟩

/-- Claim C4. For every enumerated-string option and every input string:
assigning a value whose upper-cased form is in the allowed set stores the
upper-cased value, and assigning a value whose upper-cased form is not in the
allowed set raises OptError; in particular constructing with
{"STEP_TYPE": "rfo"} reads back step_type "RFO". -/
theorem enumerated_string_option_validation :
    ∀ storage value : String,
      storage ∈ ["opt_type", "step_type", "opt_coordinates", "irc_direction",
                 "g_convergence", "hess_update", "intrafrag_hess", "frag_mode",
                 "conjugate_gradient_type"] →
      ((strUpper value ∈ allowedStringOptions storage →
          stringOptionSet storage value = .ok (strUpper value)) ∧
       (strUpper value ∉ allowedStringOptions storage →
          stringOptionSet storage value =
            .error (.optError ("Invalid value for " ++ storage))) ∧
       (buildOptParams [("STEP_TYPE", PyVal.pstr "rfo")]).map (fun p => p.step_type) =
         .ok "RFO") := by
  intro storage value _
  refine ⟨fun h => ?_, fun h => ?_, rfl⟩
  · unfold stringOptionSet
    rw [if_pos h]
  · unfold stringOptionSet
    rw [if_neg h]

/-- Witness for claim C4 at storage "step_type": "rfo" is accepted and stored
upper-cased; "junk" is rejected with OptError. -/
theorem enumerated_string_option_validation_witness :
    stringOptionSet "step_type" "rfo" = .ok "RFO" ∧
    stringOptionSet "step_type" "junk" =
      .error (.optError ("Invalid value for " ++ "step_type")) :=
  ⟨(enumerated_string_option_validation "step_type" "rfo" (by decide)).1 (by decide),
   ((enumerated_string_option_validation "step_type" "junk" (by decide)).2.1 (by decide))⟩

/-- Claim C5. The claim states that constructing with opt_type "IRC" and no
user CART_HESS_READ key enables cart_hess_read. The code instead leaves
cart_hess_read at its default false and sets a NEW attribute
`read_cartesian_H` to true (optparams.py lines 416-417), contradicting the
comment above those lines; no other code reads `read_cartesian_H`. -/
theorem irc_sets_read_cartesian_H_not_cart_hess_read :
    (buildOptParams [("OPT_TYPE", PyVal.pstr "IRC")]).map
      (fun p => (p.cart_hess_read, p.read_cartesian_H)) = .ok (false, some true) :=
  rfl

/-- Claim C10. For run_level 0-6 the dynamic-level transition modifies only
opt_coordinates, step_type, the backstep-allowance attribute
(`consecutiveBackstepsAllowed`), the three intrafrag trust values,
intrafrag_hess and sd_hessian — every other field, in particular
geom_maxiter, g_convergence and the convergence flags/thresholds, is
unchanged; for any run_level outside 0-6 it fails with OptError without
producing a mutated object. -/
theorem dynamic_level_frame (p : OptParams) (l : ℤ) :
    ((0 ≤ l ∧ l ≤ 6) →
      ∃ oc st bs t1 t2 t3 ih sd,
        updateDynamicLevelParams p l =
          .ok { p with opt_coordinates := oc, step_type := st,
                       consecutiveBackstepsAllowed := bs, intrafrag_trust := t1,
                       intrafrag_trust_min := t2, intrafrag_trust_max := t3,
                       intrafrag_hess := ih, sd_hessian := sd })
    ∧ (∀ p', updateDynamicLevelParams p l = .ok p' →
        p'.geom_maxiter = p.geom_maxiter ∧ p'.g_convergence = p.g_convergence ∧
        p'.conv = p.conv)
    ∧ (¬ (0 ≤ l ∧ l ≤ 6) →
        updateDynamicLevelParams p l = .error (.optError "Unknown value of run_level")) := by
  have hA : (0 ≤ l ∧ l ≤ 6) →
      ∃ oc st bs t1 t2 t3 ih sd,
        updateDynamicLevelParams p l =
          .ok { p with opt_coordinates := oc, step_type := st,
                       consecutiveBackstepsAllowed := bs, intrafrag_trust := t1,
                       intrafrag_trust_min := t2, intrafrag_trust_max := t3,
                       intrafrag_hess := ih, sd_hessian := sd } := by
    rintro ⟨h0, h6⟩
    interval_cases l
    · exact ⟨p.opt_coordinates, p.step_type, p.consecutiveBackstepsAllowed,
             p.intrafrag_trust, p.intrafrag_trust_min, p.intrafrag_trust_max,
             p.intrafrag_hess, p.sd_hessian, rfl⟩
    · exact ⟨"REDUNDANT", "RFO", some 0, p.intrafrag_trust, p.intrafrag_trust_min,
             p.intrafrag_trust_max, p.intrafrag_hess, p.sd_hessian, rfl⟩
    · exact ⟨"REDUNDANT", "RFO", some 2, 0.2, 0.2, 0.2, p.intrafrag_hess,
             p.sd_hessian, rfl⟩
    · exact ⟨"BOTH", "RFO", some 2, 0.1, 0.1, 0.1, p.intrafrag_hess, p.sd_hessian, rfl⟩
    · exact ⟨"CARTESIAN", "RFO", some 2, 0.2, 0.2, 0.2, "LINDH", p.sd_hessian, rfl⟩
    · exact ⟨"CARTESIAN", "SD", some 2, 0.3, 0.3, 0.3, p.intrafrag_hess, 0.3, rfl⟩
    · exact ⟨"CARTESIAN", "SD", some 2, 0.1, 0.1, 0.1, p.intrafrag_hess, 0.6, rfl⟩
  have hC : ¬ (0 ≤ l ∧ l ≤ 6) →
      updateDynamicLevelParams p l = .error (.optError "Unknown value of run_level") := by
    intro h
    have e0 : l ≠ 0 := by omega
    have e1 : l ≠ 1 := by omega
    have e2 : l ≠ 2 := by omega
    have e3 : l ≠ 3 := by omega
    have e4 : l ≠ 4 := by omega
    have e5 : l ≠ 5 := by omega
    have e6 : l ≠ 6 := by omega
    unfold updateDynamicLevelParams
    rw [if_neg e0, if_neg e1, if_neg e2, if_neg e3, if_neg e4, if_neg e5, if_neg e6]
    rfl
  refine ⟨hA, ?_, hC⟩
  intro p' hp'
  by_cases hl : 0 ≤ l ∧ l ≤ 6
  · obtain ⟨oc, st, bs, t1, t2, t3, ih, sd, heq⟩ := hA hl
    rw [heq] at hp'
    simp only [Except.ok.injEq] at hp'
    subst hp'
    exact ⟨rfl, rfl, rfl⟩
  · rw [hC hl] at hp'
    exact Except.noConfusion hp'

/-- Witness for claim C10 at a concrete configuration and run_level 2: the
frame holds, and run_level 9 errors. -/
theorem dynamic_level_frame_witness :
    ((0 : ℤ) ≤ 2 ∧ (2 : ℤ) ≤ 6) ∧
    (∃ oc st bs t1 t2 t3 ih sd,
      updateDynamicLevelParams exampleOptParams 2 =
        .ok { exampleOptParams with
                opt_coordinates := oc, step_type := st,
                consecutiveBackstepsAllowed := bs, intrafrag_trust := t1,
                intrafrag_trust_min := t2, intrafrag_trust_max := t3,
                intrafrag_hess := ih, sd_hessian := sd }) ∧
    updateDynamicLevelParams exampleOptParams 9 =
      .error (.optError "Unknown value of run_level") :=
  ⟨by decide,
   (dynamic_level_frame exampleOptParams 2).1 ⟨by decide, by decide⟩,
   (dynamic_level_frame exampleOptParams 9).2.2 (by omega)⟩

/-- Claim C6. The branch-cut unwrapping of `TORS.q`: with near180 = +1 and a
raw angle below -1.57 rad, q returns raw + 2π — a value greater than π when
the raw angle lies in the defined range (above -π); with near180 = -1 and a
raw angle above 1.57 rad, q returns raw - 2π; otherwise q returns the raw
angle unchanged. `updateOrientation` sets near180 to +1 exactly when the
observed value exceeds 1.57 rad. -/
theorem tors_q_branch_unwrap (n : ℤ) (tau : ℚ) :
    (n = 1 → tau < -fixValNearPi →
      torsWrapQ n tau = tau + 2 * piFloat ∧ (-piFloat < tau → torsWrapQ n tau > piFloat))
    ∧ (n = -1 → tau > fixValNearPi → torsWrapQ n tau = tau - 2 * piFloat)
    ∧ (¬ (n = -1 ∧ tau > fixValNearPi) → ¬ (n = 1 ∧ tau < -fixValNearPi) →
        torsWrapQ n tau = tau)
    ∧ (torsWrapQ n tau > fixValNearPi → updateOrientationVal n tau = 1) := by
  refine ⟨fun hn ht => ?_, fun hn ht => ?_, fun h1 h2 => ?_, fun h => ?_⟩
  · subst hn
    have h1 : ¬ ((1 : ℤ) = -1 ∧ tau > fixValNearPi) := fun hh => absurd hh.1 (by decide)
    have e : torsWrapQ 1 tau = tau + 2 * piFloat := by
      unfold torsWrapQ
      rw [if_neg h1, if_pos ⟨rfl, ht⟩]
    refine ⟨e, fun hlo => ?_⟩
    rw [e]
    have hpi : (0 : ℚ) < piFloat := by norm_num [piFloat]
    linarith
  · subst hn
    unfold torsWrapQ
    rw [if_pos ⟨rfl, ht⟩]
  · unfold torsWrapQ
    rw [if_neg h1, if_neg h2]
  · unfold updateOrientationVal
    rw [if_pos h]

/-- Witness for claim C6: at near180 = +1 and raw angle -2 rad the value is
unwrapped above π; at near180 = -1 and raw angle 2 rad it is wrapped down;
at near180 = 0 the raw angle 0.3 is returned unchanged. -/
theorem tors_q_branch_unwrap_witness :
    torsWrapQ 1 (-2) = -2 + 2 * piFloat ∧ torsWrapQ 1 (-2) > piFloat ∧
    torsWrapQ (-1) 2 = 2 - 2 * piFloat ∧ torsWrapQ 0 0.3 = 0.3 :=
  ⟨((tors_q_branch_unwrap 1 (-2)).1 rfl (by norm_num [fixValNearPi])).1,
   ((tors_q_branch_unwrap 1 (-2)).1 rfl (by norm_num [fixValNearPi])).2
     (by norm_num [piFloat]),
   (tors_q_branch_unwrap (-1) 2).2.1 rfl (by norm_num [fixValNearPi]),
   (tors_q_branch_unwrap 0 0.3).2.2.1 (by norm_num) (by norm_num)⟩

/-- Claim C7 counterexample: the torsions built over (0,1,2,0) and over its
reversed ordering (0,2,1,0) — mutually reversed orderings of the same atoms —
canonicalize to different stored tuples and compare UNEQUAL, refuting the
claim's equality statement as universally quantified (the first and last
atoms coincide here, so canonicalization picks opposite directions). -/
theorem tors_reversal_eq_counterexample :
    (TORS.mk4 0 1 2 0 false none).atoms = [0, 2, 1, 0] ∧
    (TORS.mk4 0 2 1 0 false none).atoms = [0, 1, 2, 0] ∧
    TORS.eqPy (TORS.mk4 0 1 2 0 false none) (.torsObj (TORS.mk4 0 2 1 0 false none)) =
      false := by
  decide

/-- Claim C7 as amended: the constructor stores (a,b,c,d) when a < d and
(d,c,b,a) otherwise — so (3,1,1,0) stores (0,1,1,3) — and two torsions
constructed from mutually reversed orderings of the same atoms compare equal
PROVIDED the first and last atoms differ (a ≠ d), while comparing a torsion
against a non-torsion object is always false. -/
theorem tors_canonicalization_eq (a b c d : ℕ) :
    (TORS.mk4 a b c d false none).atoms = (if a < d then [a, b, c, d] else [d, c, b, a])
    ∧ (TORS.mk4 3 1 1 0 false none).atoms = [0, 1, 1, 3]
    ∧ (a ≠ d →
        TORS.eqPy (TORS.mk4 a b c d false none)
          (.torsObj (TORS.mk4 d c b a false none)) = true)
    ∧ (∀ (t : TORS) (l : List ℕ), TORS.eqPy t (.otherIntco l) = false) := by
  refine ⟨rfl, by decide, fun had => ?_, fun t l => ?_⟩
  · rcases Nat.lt_trichotomy a d with h | h | h
    · have hnd : ¬ d < a := by omega
      simp [TORS.mk4, torsCanonAtoms, TORS.eqPy, IntcoObj.atomsOf, IntcoObj.isTors, h, hnd]
    · exact absurd h had
    · have hna : ¬ a < d := by omega
      simp [TORS.mk4, torsCanonAtoms, TORS.eqPy, IntcoObj.atomsOf, IntcoObj.isTors, h, hna]
  · unfold TORS.eqPy
    by_cases h : t.atoms = l
    · simp [IntcoObj.atomsOf, IntcoObj.isTors, h]
    · simp [IntcoObj.atomsOf, IntcoObj.isTors, h]

/-- Witness for the amended claim C7 at atoms (0,1,1,3): reversal equality
holds since the end atoms differ, and comparison against a non-torsion
carrying the same tuple is false. -/
theorem tors_canonicalization_eq_witness :
    (0 : ℕ) ≠ 3 ∧
    TORS.eqPy (TORS.mk4 0 1 1 3 false none) (.torsObj (TORS.mk4 3 1 1 0 false none)) =
      true ∧
    TORS.eqPy (TORS.mk4 0 1 1 3 false none) (.otherIntco [0, 1, 1, 3]) = false :=
  ⟨by decide,
   (tors_canonicalization_eq 0 1 1 3).2.2.1 (by decide),
   (tors_canonicalization_eq 0 1 1 3).2.2.2 _ _⟩

/-- Claim C2. Constructing the JSON adapter from a document whose schema_name
is "qc_schema_input" (and that carries a molecule object) succeeds, and
update_geom_and_driver with a new geometry and driver "hessian" returns a
document whose molecule.geometry is the new geometry and whose driver is
"hessian", with schema_name and model unchanged; constructing from a document
with any other schema_name fails with the InvalidInput condition (ValueError
"JSON file must match the qc_schema_input"). -/
theorem json_adapter_update_geom_driver (d : JSONVal) (m : List (String × JSONVal))
    (geom : JSONVal) :
    (jget d "schema_name" = some (.jstr "qc_schema_input") →
     jget d "molecule" = some (.jobj m) →
     ∃ sd sd' out, jsonSchemaInit d = .ok sd ∧
       update_geom_and_driver sd geom "hessian" = .ok (sd', out) ∧
       jget out "driver" = some (.jstr "hessian") ∧
       (∃ mg, jget out "molecule" = some (.jobj mg) ∧ objGet mg "geometry" = some geom) ∧
       jget out "schema_name" = jget d "schema_name" ∧
       jget out "model" = jget d "model")
    ∧ (∀ v, jget d "schema_name" = some v → v ≠ .jstr "qc_schema_input" →
        jsonSchemaInit d = .error (.valueError "JSON file must match the qc_schema_input")) := by
  constructor
  · intro h1 h2
    match d with
    | .jobj l =>
      simp only [jget] at h1 h2
      have s1 : jsetNested (.jobj l) "molecule" "fix_com" (.jbool true) =
          .ok (.jobj (objSet l "molecule" (.jobj (objSet m "fix_com" (.jbool true))))) := by
        simp only [jsetNested, h2]
      have init_eq : jsonSchemaInit (.jobj l) = .ok (.jobj (objSet (objSet l "molecule" (.jobj (objSet m "fix_com" (.jbool true)))) "molecule" (.jobj (objSet (objSet m "fix_com" (.jbool true)) "fix_orientation" (.jbool true))))) := by
        calc jsonSchemaInit (.jobj l)
            = (jsetNested (.jobj l) "molecule" "fix_com" (.jbool true)).bind
                (fun d1 => jsetNested d1 "molecule" "fix_orientation" (.jbool true)) := by
              simp only [jsonSchemaInit, jget, h1]
              rw [if_pos (by decide)]
              rfl
          _ = jsetNested (.jobj (objSet l "molecule" (.jobj (objSet m "fix_com" (.jbool true))))) "molecule" "fix_orientation" (.jbool true) := by
              rw [s1]
              rfl
          _ = _ := by simp only [jsetNested, objGet_objSet_self]
      have u1 : jsetNested (.jobj (objSet (objSet l "molecule" (.jobj (objSet m "fix_com" (.jbool true)))) "molecule" (.jobj (objSet (objSet m "fix_com" (.jbool true)) "fix_orientation" (.jbool true))))) "molecule" "geometry" geom =
          .ok (.jobj (objSet (objSet (objSet l "molecule" (.jobj (objSet m "fix_com" (.jbool true)))) "molecule" (.jobj (objSet (objSet m "fix_com" (.jbool true)) "fix_orientation" (.jbool true)))) "molecule" (.jobj (objSet (objSet (objSet m "fix_com" (.jbool true)) "fix_orientation" (.jbool true)) "geometry" geom)))) := by
        simp only [jsetNested, objGet_objSet_self]
      have upd_eq : update_geom_and_driver (.jobj (objSet (objSet l "molecule" (.jobj (objSet m "fix_com" (.jbool true)))) "molecule" (.jobj (objSet (objSet m "fix_com" (.jbool true)) "fix_orientation" (.jbool true))))) geom "hessian" =
          .ok (.jobj (objSet (objSet (objSet l "molecule" (.jobj (objSet m "fix_com" (.jbool true)))) "molecule" (.jobj (objSet (objSet m "fix_com" (.jbool true)) "fix_orientation" (.jbool true)))) "molecule" (.jobj (objSet (objSet (objSet m "fix_com" (.jbool true)) "fix_orientation" (.jbool true)) "geometry" geom))), .jobj (objSet (objSet (objSet (objSet l "molecule" (.jobj (objSet m "fix_com" (.jbool true)))) "molecule" (.jobj (objSet (objSet m "fix_com" (.jbool true)) "fix_orientation" (.jbool true)))) "molecule" (.jobj (objSet (objSet (objSet m "fix_com" (.jbool true)) "fix_orientation" (.jbool true)) "geometry" geom))) "driver" (.jstr "hessian"))) := by
        simp only [update_geom_and_driver]
        rw [u1]
        rfl
      refine ⟨_, _, _, init_eq, upd_eq, ?_, ?_, ?_, ?_⟩
      · simp only [jget, objGet_objSet_self]
      · refine ⟨(objSet (objSet (objSet m "fix_com" (.jbool true)) "fix_orientation" (.jbool true)) "geometry" geom), ?_, objGet_objSet_self _ _ _⟩
        simp only [jget]
        rw [objGet_objSet_ne _ _ _ _ (by decide), objGet_objSet_self]
      · simp only [jget]
        rw [objGet_objSet_ne _ _ _ _ (by decide), objGet_objSet_ne _ _ _ _ (by decide),
            objGet_objSet_ne _ _ _ _ (by decide), objGet_objSet_ne _ _ _ _ (by decide)]
      · simp only [jget]
        rw [objGet_objSet_ne _ _ _ _ (by decide), objGet_objSet_ne _ _ _ _ (by decide),
            objGet_objSet_ne _ _ _ _ (by decide), objGet_objSet_ne _ _ _ _ (by decide)]
  · intro v hv hne
    match d with
    | .jobj l =>
      simp only [jget] at hv
      have hfalse : isSchemaInput v = false := by
        match v with
        | .jstr s =>
          simp only [isSchemaInput, decide_eq_false_iff_not]
          intro hs
          exact hne (by rw [hs])
        | .jnum _ => rfl
        | .jbool _ => rfl
        | .jnull => rfl
        | .jarr _ => rfl
        | .jobj _ => rfl
      simp only [jsonSchemaInit, jget, hv]
      rw [if_neg (by simp [hfalse])]

/-- Witness for claim C2 at a concrete qc_schema_input document with a fresh
geometry, and a concrete document bearing schema_name "qc_schema_output". -/
theorem json_adapter_update_geom_driver_witness :
    (∃ sd sd' out, jsonSchemaInit exampleQCDoc = .ok sd ∧
       update_geom_and_driver sd exampleNewGeom "hessian" = .ok (sd', out) ∧
       jget out "driver" = some (.jstr "hessian") ∧
       (∃ mg, jget out "molecule" = some (.jobj mg) ∧
          objGet mg "geometry" = some exampleNewGeom) ∧
       jget out "schema_name" = jget exampleQCDoc "schema_name" ∧
       jget out "model" = jget exampleQCDoc "model")
    ∧ jsonSchemaInit (.jobj [("schema_name", .jstr "qc_schema_output")]) =
        .error (.valueError "JSON file must match the qc_schema_input") :=
  ⟨(json_adapter_update_geom_driver exampleQCDoc exampleMolecule exampleNewGeom).1 rfl rfl,
   (json_adapter_update_geom_driver (.jobj [("schema_name", .jstr "qc_schema_output")])
      [] exampleNewGeom).2 (.jstr "qc_schema_output") rfl (by simp)⟩

/-- Claim C8. At any geometry where one of the contained bend angles A-B-C or
B-C-D is at 0 or 180 degrees (a 1 - cos² term is at most 1e-12), DqDx and
Dq2Dx2 return without error and leave every entry of the caller-supplied
output buffers at its pre-call value. -/
theorem tors_deriv_degenerate_guard (t : TORS) (geom : ℕ → V3) (dqdx : ℕ → ℝ)
    (dq2dx2 : ℕ → ℕ → ℝ) (mini : Bool)
    (h : torsDerivGuard (TORS.geo4 t geom)) :
    TORS.DqDx t geom dqdx mini = dqdx ∧ TORS.Dq2Dx2 t geom dq2dx2 = dq2dx2 := by
  constructor
  · show (if torsDerivGuard (t.geo4 geom) then dqdx else _) = dqdx
    exact if_pos h
  · show (if torsDerivGuard (t.geo4 geom) then dq2dx2 else _) = dq2dx2
    exact if_pos h

/-- Witness for claim C8 at a torsion over (0,1,2,3) on a geometry with A, B,
C collinear (bend at 180 degrees): the guard holds and both buffers come back
unchanged. -/
theorem tors_deriv_degenerate_guard_witness :
    torsDerivGuard (TORS.geo4 (TORS.mk4 0 1 2 3 false none) geomCollinear) ∧
    TORS.DqDx (TORS.mk4 0 1 2 3 false none) geomCollinear (fun _ => 0) false =
      (fun _ => 0) ∧
    TORS.Dq2Dx2 (TORS.mk4 0 1 2 3 false none) geomCollinear (fun _ _ => 0) =
      (fun _ _ => 0) := by
  have hguard : torsDerivGuard (TORS.geo4 (TORS.mk4 0 1 2 3 false none) geomCollinear) := by
    left
    norm_num [tCosU, tU, tW, tLu, tLw, nrm, vsub, dotp, smulV, TORS.geo4, TORS.mk4,
              torsCanonAtoms, geomCollinear, Real.sqrt_one]
  exact ⟨hguard,
    (tors_deriv_degenerate_guard (TORS.mk4 0 1 2 3 false none) geomCollinear
      (fun _ => 0) (fun _ _ => 0) false hguard).1,
    (tors_deriv_degenerate_guard (TORS.mk4 0 1 2 3 false none) geomCollinear
      (fun _ => 0) (fun _ _ => 0) false hguard).2⟩

/-- Claim C9. For a non-degenerate configuration (nonzero bond vectors and
the degeneracy guard false), the first derivative computed by DqDx for atom
order (A,B,C,D) — here a torsion carrying the stored tuple (0,1,2,3) —
equals, atom-for-atom and component-for-component under reversal of the atom
order, the derivative computed for order (D,C,B,A) — a torsion carrying the
stored tuple (3,2,1,0) — using the mini (relative-index) output layout. -/
theorem tors_dqdx_order_reversal (geom : ℕ → V3) (buf : ℕ → ℝ)
    (hLu : tLu (TORS.geo4 ⟨[0, 1, 2, 3], false, none, 0⟩ geom) ≠ 0)
    (hLv : tLv (TORS.geo4 ⟨[0, 1, 2, 3], false, none, 0⟩ geom) ≠ 0)
    (hLw : tLw (TORS.geo4 ⟨[0, 1, 2, 3], false, none, 0⟩ geom) ≠ 0)
    (hg : ¬ torsDerivGuard (TORS.geo4 ⟨[0, 1, 2, 3], false, none, 0⟩ geom)) :
    ∀ a i, a < 4 → i < 3 →
      TORS.DqDx ⟨[3, 2, 1, 0], false, none, 0⟩ geom buf true (3 * a + i) =
      TORS.DqDx ⟨[0, 1, 2, 3], false, none, 0⟩ geom buf true (3 * (3 - a) + i) := by
  intro a i ha hi
  have hg2 : ¬ torsDerivGuard (TORS.geo4 ⟨[3, 2, 1, 0], false, none, 0⟩ geom) := by
    rw [show TORS.geo4 ⟨[3, 2, 1, 0], false, none, 0⟩ geom =
        grev (TORS.geo4 ⟨[0, 1, 2, 3], false, none, 0⟩ geom) from rfl, torsDerivGuard_grev]
    exact hg
  rw [DqDx_unfold, DqDx_unfold, if_neg hg2, if_neg hg]
  interval_cases a <;> interval_cases i <;>
    (simp only [List.foldl_cons, List.foldl_nil, Function.update_apply]
     norm_num
     exact torsGradTval_grev (TORS.geo4 ⟨[0, 1, 2, 3], false, none, 0⟩ geom) _ _
       (by norm_num))

/-- Witness for claim C9 at the non-degenerate right-angle geometry, atom 1,
component 2. -/
theorem tors_dqdx_order_reversal_witness :
    TORS.DqDx ⟨[3, 2, 1, 0], false, none, 0⟩ geomOrthogonal (fun _ => 0) true (3 * 1 + 2) =
    TORS.DqDx ⟨[0, 1, 2, 3], false, none, 0⟩ geomOrthogonal (fun _ => 0) true
      (3 * (3 - 1) + 2) :=
  tors_dqdx_order_reversal geomOrthogonal (fun _ => 0)
    (by norm_num [tLu, nrm, vsub, dotp, TORS.geo4, geomOrthogonal, Real.sqrt_one])
    (by norm_num [tLv, nrm, vsub, dotp, TORS.geo4, geomOrthogonal, Real.sqrt_one])
    (by norm_num [tLw, nrm, vsub, dotp, TORS.geo4, geomOrthogonal, Real.sqrt_one])
    (by norm_num [not_or, torsDerivGuard, tCosU, tCosV, tU, tV, tW, tLu, tLv, tLw,
                  nrm, smulV, vsub, dotp, TORS.geo4, geomOrthogonal, Real.sqrt_one])
    1 2 (by norm_num) (by norm_num)
